import Mathlib

/-!
Verification of the survey-analysis dashboard (`src/app.py`).

The Python source is shallowly embedded: pandas `Series` of cells become
`List (Option String)` (a `none` cell is a missing value / NaN), the data
frame becomes a header together with a list of rows, and the Streamlit
script's data pipeline becomes a pure function from the table and the
sidebar selections to an outcome value.  Percentages are modelled as exact
rationals.
-/

namespace SurveyApp

/-- Python `str.lower` restricted to the ASCII range, applied per character
(the source only ever lower-cases before ASCII keyword matching). -/
def lowerChar (c : Char) : Char :=
  if 65 ≤ c.toNat && c.toNat ≤ 90 then Char.ofNat (c.toNat + 32) else c

/-- Python `str.upper` restricted to the ASCII range, per character. -/
def upperChar (c : Char) : Char :=
  if 97 ≤ c.toNat && c.toNat ≤ 122 then Char.ofNat (c.toNat - 32) else c

/-- Python `str.lower` on a whole string. -/
def pyLower (s : String) : String := ⟨s.data.map lowerChar⟩

/-- Python `str.upper` on a whole string. -/
def pyUpper (s : String) : String := ⟨s.data.map upperChar⟩

/-- Python `str.strip`: drop leading and trailing whitespace. -/
def pyStrip (s : String) : String :=
  ⟨((s.data.dropWhile Char.isWhitespace).reverse.dropWhile Char.isWhitespace).reverse⟩

/-- Contiguous-sublist test on lists of characters, the semantics of
Python's `pat in s` on strings. -/
def subListOf (pat : List Char) : List Char → Bool
  | [] => pat.isEmpty
  | c :: cs => pat.isPrefixOf (c :: cs) || subListOf pat cs

/-- Python `pat in s` for strings. -/
def strContains (s pat : String) : Bool := subListOf pat.data s.data

/-- A cell of the response table: `none` models a pandas missing value. -/
abbrev Cell := Option String

/-- Python `str(x)` on a cell, as pandas `astype(str)` renders NaN as
`"nan"`. -/
def cellToStr : Cell → String
  | some s => s
  | none => "nan"

end SurveyApp

namespace SurveyApp

/-- `FACULTY_DEFS` from `app.py`: the ordered faculty-to-keywords table
(Python dicts iterate in insertion order). -/
def FACULTY_DEFS : List (String × List String) :=
  [("English & Languages", ["Media", "Gaelic", "French", "Gàidhlig", "Drama", "Literacy", "English"]),
   ("Maths", ["Applications of Maths", "Maths", "Mathematics"]),
   ("Health and Wellbeing", ["Physical Education", "PE", "Sport", "Health & Food", "Home Economics", "Cookery", "Health and Wellbeing"]),
   ("Science", ["Physics", "Biology", "Chemistry", "Science"]),
   ("Music, Computing and Business", ["Business", "Music", "Administration", "Computing", "Comp Sci"]),
   ("Social Subjects", ["Classical Studies", "Geography", "History", "Politics", "Modern Studies"]),
   ("Technical", ["Woodwork", "Art and Design", "Graphic Communication", "Engineering Science", "Technical", "Textiles", "Fashion"]),
   ("PSE", ["PSE", "Personal and Social Education"])]

/-- `CATEGORIES` from `app.py`: category name to list of column-name
prefixes, in definition order. -/
def CATEGORIES : List (String × List String) :=
  [("1. Climate & Mindset", ["1 ", "13 ", "14 "]),
   ("2. Pedagogy & Challenge", ["4 ", "5 ", "8 ", "9 "]),
   ("3. Clarity & Communication", ["2 ", "3 ", "11 "]),
   ("4. Support & Feedback", ["6 ", "7 ", "10 ", "12 "])]

/-- `find_column(df, keywords)` from `app.py`: the first column whose
lower-cased name contains one of the keywords as a substring. -/
def find_column (cols : List String) (keywords : List String) : Option String :=
  cols.find? (fun col => keywords.any (fun k => strContains (pyLower col) k))

/-- The membership test of the `assign_faculty` loop: does one of the
faculty's lower-cased keywords occur in the cleaned subject string? -/
def facultyMatches (s_clean : String) (fd : String × List String) : Bool :=
  fd.2.any (fun k => strContains s_clean (pyLower k))

/-- `assign_faculty(subj)` from `app.py`: lower-case the subject (the
source does not strip here; the pipeline strips `Mapped_Subj` first) and
return the first faculty in `FACULTY_DEFS` order one of whose lower-cased
keywords is a substring, else `"Other"`. -/
def assign_faculty (subj : String) : String :=
  match FACULTY_DEFS.find? (facultyMatches (pyLower subj)) with
  | some fd => fd.1
  | none => "Other"

/-- The `valid` series built inside `calc_pos_rate`: drop missing cells
(`dropna`), then lower-case and strip each remaining value. -/
def validValues (series : List Cell) : List String :=
  (series.filterMap id).map (fun s => pyStrip (pyLower s))

/-- The positive-answer test of `calc_pos_rate`: membership in
`['agree', 'strongly agree']`. -/
def isPositive (v : String) : Bool := v == "agree" || v == "strongly agree"

/-- `calc_pos_rate(series)` from `app.py`: drop missing cells, lower-case
and strip the rest, and return the percentage of values equal to
`"agree"` or `"strongly agree"`, or `0` when no valid value remains. -/
def calc_pos_rate (series : List Cell) : ℚ :=
  if (validValues series).isEmpty then 0
  else (((validValues series).countP isPositive : ℚ) / ((validValues series).length : ℚ)) * 100

/-- `get_stage(y)` from `app.py`: upper-case the year-group value and test
the stage tokens in fixed priority order. -/
def get_stage (y : String) : String :=
  let u := pyUpper y
  if strContains u "S1" || strContains u "S2" then "S1 & S2"
  else if strContains u "S3" then "S3"
  else if ["S4", "S5", "S6"].any (fun s => strContains u s) then "Senior Phase"
  else "Other"

/-- A row of the response table: the cells in header order. -/
abbrev Row := List Cell

/-- The loaded data frame: the (already normalised) column headers and the
rows. -/
structure Table where
  cols : List String
  rows : List Row

/-- Look a cell up by column name, as `row[col]` does via the header. -/
def cellAt (header : List String) (r : Row) (c : String) : Cell :=
  match header.findIdx? (fun h => h == c) with
  | some i => r.getD i none
  | none => none

/-- The columns of one category:
`[c for c in df.columns if any(c.startswith(p) for p in prefixes)]`. -/
def catColumns (header : List String) (prefixes : List String) : List String :=
  header.filter (fun c => prefixes.any (fun p => p.data.isPrefixOf c.data))

/-- `df[cat_cols].values.flatten()` restricted to the given rows: all rows
times all listed columns, flattened row-major into one series. -/
def flattenPool (header : List String) (rows : List Row) (cols : List String) : List Cell :=
  rows.flatMap (fun r => cols.map (fun c => cellAt header r c))

/-- The category-level score of `app.py`:
`calc_pos_rate(pd.Series(sub_df[cat_cols].values.flatten()))` where
`cat_cols` are the columns whose names start with one of the category's
prefixes. -/
def category_score (header : List String) (rows : List Row) (prefixes : List String) : ℚ :=
  calc_pos_rate (flattenPool header rows (catColumns header prefixes))

/-- Python `int(x)` on a rational score: truncation toward zero, applied
by the renderer (`{int(s_score)}%`), never during aggregation. -/
def py_int (q : ℚ) : ℤ := Int.tdiv q.num (q.den : ℤ)

/-- The badge branch of the category loop: `diff > 5` gives the green
badge, `diff < -5` the red badge, anything else no badge. -/
def diff_badge (diff : ℚ) : String :=
  if diff > 5 then "diff-green"
  else if diff < -5 then "diff-red"
  else ""

/-- The keyword list `['year group', 'group', 'stage']` used for the
year-group column auto-detection. -/
def yearKeywords : List String := ["year group", "group", "stage"]

/-- The keyword list used for the subject column auto-detection. -/
def subjKeywords : List String := ["which subject", "subject answering", "subject today"]

/-- `auto_year` of `app.py`: `find_column(df, [...]) or df.columns[0]`.
`find_column` never returns a falsy (empty) column name for these
keywords, so `or` is exactly the `none` fallback; `none` here models the
`IndexError` on a table without a first column. -/
def auto_year (cols : List String) : Option String :=
  (find_column cols yearKeywords).orElse (fun _ => cols[0]?)

/-- `auto_subj` of `app.py`: `find_column(df, [...]) or df.columns[1]`. -/
def auto_subj (cols : List String) : Option String :=
  (find_column cols subjKeywords).orElse (fun _ => cols[1]?)

/-- The sidebar selections feeding one compute-and-render pass. -/
structure Selections where
  year_col : String
  subj_col : String
  sel_fac : String
  sel_subjects : List String
  sel_stage : String
  sel_bench : String

/-- `df['Mapped_Subj']` for one row: `astype(str).str.strip()` of the
subject cell. -/
def rowSubj (t : Table) (sel : Selections) (r : Row) : String :=
  pyStrip (cellToStr (cellAt t.cols r sel.subj_col))

/-- `df['Stage']` for one row: `get_stage` of the year-group cell
(`get_stage` itself applies `str`). -/
def rowStage (t : Table) (sel : Selections) (r : Row) : String :=
  get_stage (cellToStr (cellAt t.cols r sel.year_col))

/-- `df['Faculty']` for one row: `assign_faculty` of the mapped subject. -/
def rowFaculty (t : Table) (sel : Selections) (r : Row) : String :=
  assign_faculty (rowSubj t sel r)

/-- `active_df`: the whole table, or the rows of the selected stage when a
year-group filter is active. -/
def activeRows (t : Table) (sel : Selections) : List Row :=
  if sel.sel_stage == "All Years" then t.rows
  else t.rows.filter (fun r => rowStage t sel r == sel.sel_stage)

/-- `target_df`: the active rows whose mapped subject is among the
selected subjects. -/
def targetRows (t : Table) (sel : Selections) : List Row :=
  (activeRows t sel).filter (fun r => sel.sel_subjects.contains (rowSubj t sel r))

/-- `bench_df`: whole-school keeps all active rows, faculty restricts the
active rows to the chosen faculty, and the department benchmark takes the
selected subjects over the UNFILTERED table (`df`, all years). -/
def benchRows (t : Table) (sel : Selections) : List Row :=
  if sel.sel_bench == "Whole School Average" then activeRows t sel
  else if sel.sel_bench == "Faculty Average" then
    (activeRows t sel).filter (fun r => rowFaculty t sel r == sel.sel_fac)
  else
    t.rows.filter (fun r => sel.sel_subjects.contains (rowSubj t sel r))

/-- What one compute-and-render pass produces. -/
inductive Outcome
  /-- `st.warning('Please select at least one subject.'); st.stop()`. -/
  | stopNoSubjects
  /-- `st.warning('No data found for this selection.')`, no chart. -/
  | warnNoData
  /-- The dashboard cards: per rendered category its name, target score
  and benchmark score. -/
  | rendered (cards : List (String × ℚ × ℚ))
deriving DecidableEq

/-- The category loop: skip a category with no matching columns
(`if not cat_cols: continue`), otherwise emit its pooled target and
benchmark scores. -/
def categoryCards (t : Table) (sel : Selections) : List (String × ℚ × ℚ) :=
  CATEGORIES.filterMap (fun cp =>
    if (catColumns t.cols cp.2).isEmpty then none
    else some (cp.1, category_score t.cols (targetRows t sel) cp.2,
                     category_score t.cols (benchRows t sel) cp.2))

/-- The guarded dashboard pass of `app.py`: empty subject selection stops
the run, an empty target subset yields only a warning, otherwise the
category cards are rendered. -/
def runDashboard (t : Table) (sel : Selections) : Outcome :=
  if sel.sel_subjects.isEmpty then .stopNoSubjects
  else if (targetRows t sel).isEmpty then .warnNoData
  else .rendered (categoryCards t sel)

/-- The run with the auto-detected column defaults and no explicit user
override, as on first render: the selectbox defaults are `auto_year` and
`auto_subj` and the pass proceeds with them immediately. -/
def runWithDefaults (t : Table) (fac : String) (subjects : List String)
    (stage bench : String) : Option Outcome :=
  match auto_year t.cols, auto_subj t.cols with
  | some yc, some sc => some (runDashboard t ⟨yc, sc, fac, subjects, stage, bench⟩)
  | _, _ => none

/-- The arithmetic mean of the per-question percentages of a category.
Modelled from the spec's words only, as the contrasting aggregation the
spec says the code does NOT use; it is compared against the pooled
`category_score` taken from the source. -/
def meanOfQuestionRates (header : List String) (rows : List Row) (prefixes : List String) : ℚ :=
  ((catColumns header prefixes).map
      (fun c => calc_pos_rate (rows.map (fun r => cellAt header r c)))).sum /
    ((catColumns header prefixes).length : ℚ)

/-- Evaluation principle for `calc_pos_rate` once the valid series, its
positive count and its length are known. -/
theorem calc_pos_rate_eval (series : List Cell) (l : List String) (c n : ℕ)
    (h : validValues series = l) (hc : l.countP isPositive = c) (hn : l.length = n)
    (hne : n ≠ 0) : calc_pos_rate series = (c : ℚ) / (n : ℚ) * 100 := by
  have hl : l.isEmpty = false := by
    cases l with
    | nil => exact absurd hn.symm hne
    | cons a as => rfl
  simp only [calc_pos_rate, h, hl, Bool.false_eq_true, if_false, hc, hn]

/-- Python `int` truncation agrees with the floor on the nonnegative
rationals the renderer receives. -/
theorem py_int_eq_floor (q : ℚ) (h : 0 ≤ q) : py_int q = ⌊q⌋ := by
  rw [py_int, Rat.floor_def, Int.tdiv_eq_ediv (Rat.num_nonneg.mpr h) (by positivity)]

/-- C2: an input series with no valid (non-missing) value — in particular
the empty series and an all-missing series — yields `0` from
`calc_pos_rate` rather than a division by zero: the division sits in the
branch only reached when a valid value remains. -/
theorem calc_pos_rate_no_valid_zero (series : List Cell)
    (h : series.filterMap id = []) : calc_pos_rate series = 0 := by
  have hv : validValues series = [] := by rw [validValues, h]; rfl
  simp [calc_pos_rate, hv]

/-- Witness for C2 at the all-missing series `[missing, missing]`. -/
theorem calc_pos_rate_no_valid_zero_witness :
    ([Option.none, Option.none] : List Cell).filterMap id = [] ∧
      calc_pos_rate [Option.none, Option.none] = 0 :=
  ⟨by decide, calc_pos_rate_no_valid_zero [Option.none, Option.none] (by decide)⟩

/-- C9: `calc_pos_rate` always lands in the closed interval `[0, 100]`
(the positive count never exceeds the number of valid values), and the
empty series gives exactly `0`. -/
theorem calc_pos_rate_bounded (series : List Cell) :
    (0 ≤ calc_pos_rate series ∧ calc_pos_rate series ≤ 100) ∧ calc_pos_rate [] = 0 := by
  refine ⟨?_, by decide⟩
  unfold calc_pos_rate
  cases hv : (validValues series).isEmpty with
  | true => simp
  | false =>
    simp only [Bool.false_eq_true, if_false]
    have hlen : 0 < (validValues series).length := by
      cases hl : validValues series with
      | nil => rw [hl] at hv; exact absurd hv (by simp)
      | cons a as => simp [hl]
    have hcount : (validValues series).countP isPositive ≤ (validValues series).length :=
      List.countP_le_length _
    constructor
    · positivity
    · have h1 : ((validValues series).countP isPositive : ℚ) /
          ((validValues series).length : ℚ) ≤ 1 := by
        rw [div_le_one (by exact_mod_cast hlen)]
        exact_mod_cast hcount
      calc ((validValues series).countP isPositive : ℚ) /
            ((validValues series).length : ℚ) * 100
          ≤ 1 * 100 := mul_le_mul_of_nonneg_right h1 (by norm_num)
        _ = 100 := by norm_num

/-- C6: with `diff = target_score - benchmark_score`, the green
("strength") badge appears exactly when `diff > 5`, the red ("concern")
badge exactly when `diff < -5`, and no badge ("in line") exactly when
`-5 ≤ diff ≤ 5`; the thresholds are the fixed constant `5` both ways. -/
theorem diff_badge_thresholds (s b : ℚ) :
    (diff_badge (s - b) = "diff-green" ↔ s - b > 5) ∧
      (diff_badge (s - b) = "diff-red" ↔ s - b < -5) ∧
      (diff_badge (s - b) = "" ↔ (-5 ≤ s - b ∧ s - b ≤ 5)) := by
  unfold diff_badge
  split_ifs with h1 h2
  · refine ⟨by simpa using h1, ?_, ?_⟩
    · simp only [String.reduceEq, false_iff]; intro hc; linarith
    · simp only [String.reduceEq, false_iff]; intro hc; linarith [hc.2]
  · refine ⟨?_, by simpa using h2, ?_⟩
    · simp only [String.reduceEq, false_iff]; exact h1
    · simp only [String.reduceEq, false_iff]; intro hc; linarith [hc.1]
  · push_neg at h1 h2
    refine ⟨?_, ?_, by simp only [true_iff]; exact ⟨h2, h1⟩⟩
    · simp only [String.reduceEq, false_iff]; intro hc; linarith
    · simp only [String.reduceEq, false_iff]; intro hc; linarith

/-- C4: `get_stage` always returns one of the four stage labels, tests the
tokens in the fixed priority order S1/S2, then S3, then S4–S6 (so a value
containing several tokens takes the first matching bucket), and on the
spec's examples gives `S1 & S2` for `"S2"`, `Senior Phase` for `"S5"` and
`Other` for `"P7"`. -/
theorem get_stage_classification :
    (∀ y, get_stage y = "S1 & S2" ∨ get_stage y = "S3" ∨
        get_stage y = "Senior Phase" ∨ get_stage y = "Other") ∧
      (∀ y, (strContains (pyUpper y) "S1" || strContains (pyUpper y) "S2") = true →
        get_stage y = "S1 & S2") ∧
      (∀ y, (strContains (pyUpper y) "S1" || strContains (pyUpper y) "S2") = false →
        strContains (pyUpper y) "S3" = true → get_stage y = "S3") ∧
      (∀ y, (strContains (pyUpper y) "S1" || strContains (pyUpper y) "S2") = false →
        strContains (pyUpper y) "S3" = false →
        (["S4", "S5", "S6"].any (fun s => strContains (pyUpper y) s)) = true →
        get_stage y = "Senior Phase") ∧
      (∀ y, (strContains (pyUpper y) "S1" || strContains (pyUpper y) "S2") = false →
        strContains (pyUpper y) "S3" = false →
        (["S4", "S5", "S6"].any (fun s => strContains (pyUpper y) s)) = false →
        get_stage y = "Other") ∧
      get_stage "S2" = "S1 & S2" ∧ get_stage "S5" = "Senior Phase" ∧
      get_stage "P7" = "Other" := by
  refine ⟨?_, ?_, ?_, ?_, ?_, by decide, by decide, by decide⟩
  · intro y
    simp only [get_stage]
    split_ifs <;> simp
  · intro y h; simp [get_stage, h]
  · intro y h1 h2; simp [get_stage, h1, h2]
  · intro y h1 h2 h3; simp [get_stage, h1, h2, h3]
  · intro y h1 h2 h3; simp [get_stage, h1, h2, h3]

/-- Witness for C4: a year-group value containing both an S1 and an S3
token resolves by priority to `S1 & S2`. -/
theorem get_stage_classification_witness :
    (strContains (pyUpper "S1 and S3") "S1" || strContains (pyUpper "S1 and S3") "S2") = true ∧
      get_stage "S1 and S3" = "S1 & S2" :=
  ⟨by decide, get_stage_classification.2.1 "S1 and S3" (by decide)⟩

/-- The spec's worked `positive_rate` example series. -/
def exSeries : List Cell := [some "Agree", some "Strongly Agree", some "Disagree"]

/-- C3: `calc_pos_rate` drops the missing cells, lower-cases and trims the
rest and counts exact `"agree"`/`"strongly agree"` matches; the worked
example evaluates to exactly `2/3 × 100` (`66.67` at two decimal places);
the value is kept exact and only `int`-truncated (to `66`) by the
renderer; in general the non-empty case is exactly `count/total × 100`. -/
theorem calc_pos_rate_exact_and_truncation :
    validValues (Option.none :: exSeries) = ["agree", "strongly agree", "disagree"] ∧
      calc_pos_rate exSeries = 2 / 3 * 100 ∧
      round (calc_pos_rate exSeries * 100) = 6667 ∧
      py_int (calc_pos_rate exSeries) = 66 ∧
      calc_pos_rate exSeries ≠ 66 ∧
      (∀ series : List Cell, validValues series ≠ [] →
        calc_pos_rate series =
          ((validValues series).countP isPositive : ℚ) /
            ((validValues series).length : ℚ) * 100) := by
  have hrate : calc_pos_rate exSeries = 2 / 3 * 100 := by
    rw [calc_pos_rate_eval exSeries ["agree", "strongly agree", "disagree"] 2 3
      (by decide) (by decide) (by decide) (by norm_num)]
    norm_num
  refine ⟨by decide, hrate, ?_, ?_, ?_, ?_⟩
  · rw [hrate, round_eq, Int.floor_eq_iff]; norm_num
  · rw [hrate, py_int_eq_floor _ (by norm_num), Int.floor_eq_iff]; norm_num
  · rw [hrate]; norm_num
  · intro series hne
    exact calc_pos_rate_eval series (validValues series) _ _ rfl rfl rfl
      (fun h => hne (List.length_eq_zero.mp h))

/-- Witness for C3 at the worked example series. -/
theorem calc_pos_rate_exact_and_truncation_witness :
    validValues exSeries ≠ [] ∧
      calc_pos_rate exSeries =
        ((validValues exSeries).countP isPositive : ℚ) /
          ((validValues exSeries).length : ℚ) * 100 :=
  ⟨by decide, calc_pos_rate_exact_and_truncation.2.2.2.2.2 exSeries (by decide)⟩

/-- C5: `assign_faculty` (applied by the pipeline to the stripped
`Mapped_Subj`) lower-cases the subject, walks `FACULTY_DEFS` in
definition order and returns the first faculty with a case-insensitive
keyword-substring match, `"Other"` when none matches; there is no ranking
by match length or count, so `"Physics and Music"` goes to `"Science"`
even though a later faculty's keyword `"Music"` also matches, and
`"Higher Physics"` resolves to the faculty whose keyword list contains
`"Physics"`. -/
theorem assign_faculty_first_match :
    (∀ s, assign_faculty s ∈ FACULTY_DEFS.map Prod.fst ++ ["Other"]) ∧
      (∀ s fd, FACULTY_DEFS.find? (facultyMatches (pyLower s)) = some fd →
        assign_faculty s = fd.1) ∧
      (∀ s, FACULTY_DEFS.all (fun fd => !facultyMatches (pyLower s) fd) = true →
        assign_faculty s = "Other") ∧
      ("Science", ["Physics", "Biology", "Chemistry", "Science"]) ∈ FACULTY_DEFS ∧
      assign_faculty (pyStrip "  Higher Physics  ") = "Science" ∧
      facultyMatches (pyLower "Physics and Music")
        ("Music, Computing and Business",
          ["Business", "Music", "Administration", "Computing", "Comp Sci"]) = true ∧
      assign_faculty (pyStrip "Physics and Music") = "Science" := by
  refine ⟨?_, ?_, ?_, by decide, by decide, by decide, by decide⟩
  · intro s
    unfold assign_faculty
    cases h : FACULTY_DEFS.find? (facultyMatches (pyLower s)) with
    | none => simp
    | some fd =>
      simp only [List.mem_append]
      exact Or.inl (List.mem_map_of_mem Prod.fst (List.mem_of_find?_eq_some h))
  · intro s fd h
    simp [assign_faculty, h]
  · intro s h
    have hnone : FACULTY_DEFS.find? (facultyMatches (pyLower s)) = none := by
      rw [List.find?_eq_none]
      intro x hx
      have := List.all_eq_true.mp h x hx
      simpa using this
    simp [assign_faculty, hnone]

/-- Header of the category-aggregation example: two question columns, both
with prefixes of category 1. -/
def catHeader : List String := ["1 A", "13 B"]

/-- Rows of the spec's category example: question `1 A` has 3 "agree" of 4
valid answers, question `13 B` has 1 of 4. -/
def poolRowsEq : List Row :=
  [[some "Agree", some "Agree"], [some "Agree", some "Disagree"],
   [some "Agree", some "Disagree"], [some "Disagree", some "Disagree"]]

/-- Rows with unequal valid counts per question (1 valid vs 3 valid), on
which the pooled rate and the mean of per-question rates disagree. -/
def poolRowsNe : List Row :=
  [[some "Agree", Option.none], [Option.none, some "Disagree"],
   [Option.none, some "Disagree"], [Option.none, some "Disagree"]]

/-- The prefixes of category `1. Climate & Mindset`. -/
def cat1Prefixes : List String := ["1 ", "13 ", "14 "]

/-- C1: the category-level score is `calc_pos_rate` of the single pool of
all rows × all category columns; on the spec's example (3 and 1 "agree"
out of 4 valid answers per question) it is the pooled rate `50` over all
8 answers; and it is not the arithmetic mean of the per-question
percentages, from which it differs when the questions have unequal valid
counts. -/
theorem category_score_is_pooled_rate :
    (∀ (header : List String) (rows : List Row) (prefixes : List String),
      category_score header rows prefixes =
        calc_pos_rate (flattenPool header rows (catColumns header prefixes))) ∧
      calc_pos_rate (poolRowsEq.map (fun r => cellAt catHeader r "1 A")) = 75 ∧
      calc_pos_rate (poolRowsEq.map (fun r => cellAt catHeader r "13 B")) = 25 ∧
      (flattenPool catHeader poolRowsEq (catColumns catHeader cat1Prefixes)).length = 8 ∧
      category_score catHeader poolRowsEq cat1Prefixes = 50 ∧
      category_score catHeader poolRowsNe cat1Prefixes = 25 ∧
      meanOfQuestionRates catHeader poolRowsNe cat1Prefixes = 50 ∧
      category_score catHeader poolRowsNe cat1Prefixes ≠
        meanOfQuestionRates catHeader poolRowsNe cat1Prefixes := by
  have h75 : calc_pos_rate (poolRowsEq.map (fun r => cellAt catHeader r "1 A")) = 75 := by
    rw [calc_pos_rate_eval _ ["agree", "agree", "agree", "disagree"] 3 4
      (by decide) (by decide) (by decide) (by norm_num)]
    norm_num
  have h25 : calc_pos_rate (poolRowsEq.map (fun r => cellAt catHeader r "13 B")) = 25 := by
    rw [calc_pos_rate_eval _ ["agree", "disagree", "disagree", "disagree"] 1 4
      (by decide) (by decide) (by decide) (by norm_num)]
    norm_num
  have h50 : category_score catHeader poolRowsEq cat1Prefixes = 50 := by
    rw [category_score, calc_pos_rate_eval _
      ["agree", "agree", "agree", "disagree", "agree", "disagree", "disagree", "disagree"] 4 8
      (by decide) (by decide) (by decide) (by norm_num)]
    norm_num
  have hpool : category_score catHeader poolRowsNe cat1Prefixes = 25 := by
    rw [category_score, calc_pos_rate_eval _ ["agree", "disagree", "disagree", "disagree"] 1 4
      (by decide) (by decide) (by decide) (by norm_num)]
    norm_num
  have hmean : meanOfQuestionRates catHeader poolRowsNe cat1Prefixes = 50 := by
    have hcols : catColumns catHeader cat1Prefixes = ["1 A", "13 B"] := by decide
    have hq1 : calc_pos_rate (poolRowsNe.map (fun r => cellAt catHeader r "1 A")) = 100 := by
      rw [calc_pos_rate_eval _ ["agree"] 1 1 (by decide) (by decide) (by decide) (by norm_num)]
      norm_num
    have hq2 : calc_pos_rate (poolRowsNe.map (fun r => cellAt catHeader r "13 B")) = 0 := by
      rw [calc_pos_rate_eval _ ["disagree", "disagree", "disagree"] 0 3
        (by decide) (by decide) (by decide) (by norm_num)]
      norm_num
    rw [meanOfQuestionRates, hcols]
    simp only [List.map_cons, List.map_nil, List.sum_cons, List.sum_nil, hq1, hq2]
    norm_num
  exact ⟨fun _ _ _ => rfl, h75, h25, by decide, h50, hpool, hmean, by rw [hpool, hmean]; norm_num⟩

/-- Witness for C5: the first-match rule applied at `"Higher Physics"`. -/
theorem assign_faculty_first_match_witness :
    FACULTY_DEFS.find? (facultyMatches (pyLower "Higher Physics")) =
        some ("Science", ["Physics", "Biology", "Chemistry", "Science"]) ∧
      assign_faculty "Higher Physics" = "Science" :=
  ⟨by decide, assign_faculty_first_match.2.1 "Higher Physics"
    ("Science", ["Physics", "Biology", "Chemistry", "Science"]) (by decide)⟩

/-- C8: an empty subject selection stops the run with a warning before any
processing, an empty filtered target subset yields only a warning, and a
rendered dashboard implies the target subset was non-empty — no chart is
ever rendered for an empty selection. -/
theorem empty_selection_guards (t : Table) (sel : Selections) :
    (sel.sel_subjects = [] → runDashboard t sel = Outcome.stopNoSubjects) ∧
      (sel.sel_subjects ≠ [] → targetRows t sel = [] →
        runDashboard t sel = Outcome.warnNoData) ∧
      (∀ cards, runDashboard t sel = Outcome.rendered cards → targetRows t sel ≠ []) := by
  refine ⟨?_, ?_, ?_⟩
  · intro h; simp [runDashboard, h]
  · intro h1 h2
    simp [runDashboard, h1, h2]
  · intro cards h hempty
    simp only [runDashboard, hempty, List.isEmpty_nil, if_true] at h
    split_ifs at h

/-- Witness for C8: the guards at an empty selection and at a table with
no matching rows. -/
theorem empty_selection_guards_witness :
    runDashboard ⟨["Year", "Subject"], []⟩
        ⟨"Year", "Subject", "Science", [], "All Years", "Whole School Average"⟩ =
      Outcome.stopNoSubjects ∧
      runDashboard ⟨["Year", "Subject"], []⟩
          ⟨"Year", "Subject", "Science", ["Physics"], "All Years", "Whole School Average"⟩ =
        Outcome.warnNoData :=
  ⟨(empty_selection_guards _ _).1 rfl,
   (empty_selection_guards _ _).2.1 (by decide) (by decide)⟩

/-- The table of the benchmark-population example: one subject taught in
two stages. -/
def deptTable : Table :=
  ⟨["Year", "Subject", "1 Q"],
   [[some "S1", some "French", some "Agree"],
    [some "S5", some "French", some "Disagree"]]⟩

/-- Selections with an active stage filter and the department benchmark. -/
def deptSel : Selections :=
  ⟨"Year", "Subject", "English & Languages", ["French"], "S1 & S2", "Department Average"⟩

/-- C10: the department benchmark pools the selected subjects over the
whole table, ignoring the stage filter (so it is invariant under changing
the selected stage), while the whole-school and faculty benchmarks are
cut from the stage-filtered active rows; hence with a stage filter active
the department benchmark population can differ from the target population
for the same selected subjects. -/
theorem benchmark_population_spec :
    (∀ (t : Table) (sel : Selections), sel.sel_bench = "Department Average" →
      benchRows t sel =
        t.rows.filter (fun r => sel.sel_subjects.contains (rowSubj t sel r))) ∧
      (∀ (t : Table) (sel : Selections) (s1 s2 : String),
        sel.sel_bench = "Department Average" →
        benchRows t { sel with sel_stage := s1 } = benchRows t { sel with sel_stage := s2 }) ∧
      (∀ (t : Table) (sel : Selections), sel.sel_bench = "Whole School Average" →
        benchRows t sel = activeRows t sel) ∧
      (∀ (t : Table) (sel : Selections), sel.sel_bench = "Faculty Average" →
        benchRows t sel =
          (activeRows t sel).filter (fun r => rowFaculty t sel r == sel.sel_fac)) ∧
      targetRows deptTable deptSel = [[some "S1", some "French", some "Agree"]] ∧
      benchRows deptTable deptSel = deptTable.rows ∧
      benchRows deptTable deptSel ≠ targetRows deptTable deptSel := by
  refine ⟨?_, ?_, ?_, ?_, by decide, by decide, by decide⟩
  · intro t sel h; simp [benchRows, h]
  · intro t sel s1 s2 h
    simp [benchRows, h, rowSubj]
  · intro t sel h; simp [benchRows, h]
  · intro t sel h; simp [benchRows, h]

/-- Witness for C10: the department-benchmark shape at the concrete
example table. -/
theorem benchmark_population_spec_witness :
    benchRows deptTable deptSel =
      deptTable.rows.filter
        (fun r => deptSel.sel_subjects.contains (rowSubj deptTable deptSel r)) :=
  benchmark_population_spec.1 deptTable deptSel rfl

/-- Does an outcome render dashboard cards? -/
def Outcome.isRendered : Outcome → Bool
  | .rendered _ => true
  | _ => false

/-- The table of the column-fallback counterexample: no header matches the
year-group or subject keyword lists. -/
def fallbackTable : Table :=
  ⟨["Q1 I feel", "Q2 Answers", "1 Q"],
   [[some "S1", some "Physics", some "Agree"]]⟩

/-- Counterexample to C7: on a table whose headers defeat the keyword
auto-detection, the run neither halts nor waits for an explicit pick — it
silently defaults the year-group column to the first column and the
subject column to the second and proceeds all the way to a rendered
dashboard. -/
theorem column_fallback_counterexample :
    find_column fallbackTable.cols yearKeywords = none ∧
      find_column fallbackTable.cols subjKeywords = none ∧
      auto_year fallbackTable.cols = some "Q1 I feel" ∧
      auto_subj fallbackTable.cols = some "Q2 Answers" ∧
      (runWithDefaults fallbackTable "Science" ["Physics"] "All Years"
          "Whole School Average").map Outcome.isRendered = some true := by
  refine ⟨by decide, by decide, by decide, by decide, rfl⟩

/-- C7 as amended: when the keyword auto-detection finds neither column,
the selectbox defaults fall back to the first and second columns of the
table and the pass proceeds immediately with them; no halt and no
diagnostic occurs. -/
theorem auto_columns_default_and_proceed :
    (∀ cols : List String, find_column cols yearKeywords = none →
      auto_year cols = cols[0]?) ∧
      (∀ cols : List String, find_column cols subjKeywords = none →
        auto_subj cols = cols[1]?) ∧
      (∀ (t : Table) (yc sc fac stage bench : String) (subjects : List String),
        find_column t.cols yearKeywords = none → find_column t.cols subjKeywords = none →
        t.cols[0]? = some yc → t.cols[1]? = some sc →
        runWithDefaults t fac subjects stage bench =
          some (runDashboard t ⟨yc, sc, fac, subjects, stage, bench⟩)) := by
  refine ⟨?_, ?_, ?_⟩
  · intro cols h; simp [auto_year, h, Option.orElse]
  · intro cols h; simp [auto_subj, h, Option.orElse]
  · intro t yc sc fac stage bench subjects hy hs h0 h1
    rw [runWithDefaults]
    have hay : auto_year t.cols = some yc := by simp [auto_year, hy, Option.orElse, h0]
    have has : auto_subj t.cols = some sc := by simp [auto_subj, hs, Option.orElse, h1]
    rw [hay, has]

/-- Witness for C7 as amended, at the concrete fallback table. -/
theorem auto_columns_default_and_proceed_witness :
    runWithDefaults fallbackTable "Science" ["Physics"] "All Years" "Whole School Average" =
      some (runDashboard fallbackTable
        ⟨"Q1 I feel", "Q2 Answers", "Science", ["Physics"], "All Years",
          "Whole School Average"⟩) :=
  auto_columns_default_and_proceed.2.2 fallbackTable "Q1 I feel" "Q2 Answers" "Science"
    "All Years" "Whole School Average" ["Physics"] (by decide) (by decide) (by decide) (by decide)

end SurveyApp
